import Mathlib

/-!
Shallow embedding of the human-review controller in `src/App.js`
(AI-Firewall-Simulator).

The controller's observable behaviour is modelled as the ordered list of
effects (`Event`) a handler performs, given the outcomes of the gateway
round-trips it awaits.  `runEvents` replays an effect list over the React
state record (`AppState`), mirroring the `setXxx` state setters.  A gateway
round-trip that throws at the `fetch` or at the `response.json()` stage is
modelled as `none`; a parsed response is `some r`.

The notification auto-dismiss timers (`showNotification`'s `setTimeout`)
are modelled separately as a timeline (`visibleAt`): every
`showNotification` call writes the slot immediately and schedules an
unconditional clear 3000 time units later; the source never calls
`clearTimeout`, so all pending clears eventually fire.
-/

/-- One pending anomaly sample.  The controller logic only ever reads
`predicted_action` (correction panel) and forwards the sample value into the
review payload; the remaining fields of the JS object (`predicted_suspicious`,
`network_parameters`, `parameter_analysis`, `current`) are display-only
floating-point rendering data never inspected by the control flow under
verification, so they are not modelled. -/
structure Sample where
  ip : String
  predicted_action : Nat
  deriving DecidableEq

/-- `pending_feedback` sub-object of the stats snapshot. -/
structure PendingFeedback where
  count : Nat
  threshold : Nat
  deriving DecidableEq

/-- Aggregate stats snapshot; replaced wholesale by `setStats`. -/
structure Stats where
  accuracy : Nat
  total_reviewed : Nat
  correct_predictions : Nat
  incorrect_predictions : Nat
  pending_feedback : PendingFeedback
  retraining_in_progress : Bool
  deriving DecidableEq

/-- The single-slot notification value: `setNotification (some n)` shows it,
`setNotification none` clears the slot.  `type` is the JS severity string
(one of "success", "warning", "error"). -/
structure Notification where
  message : String
  type : String
  deriving DecidableEq

/-- The React state of `App` (the `useState` hooks, in source order). -/
structure AppState where
  samples : List Sample
  stats : Option Stats
  loading : Bool
  processing : Bool
  correctionMode : Bool
  notification : Option Notification
  deriving DecidableEq

/-- Initial values of the `useState` hooks in `App`. -/
def initialState : AppState :=
  { samples := [], stats := none, loading := true, processing := false,
    correctionMode := false, notification := none }

/-- Parsed body of a `load_samples` response. -/
structure SamplesResponse where
  success : Bool
  samples : List Sample
  deriving DecidableEq

/-- Parsed body of a `stats` response. -/
structure StatsResponse where
  success : Bool
  stats : Stats
  deriving DecidableEq

/-- Parsed body of a `review` response. -/
structure ReviewResponse where
  success : Bool
  message : String
  deriving DecidableEq

/-- The JS object literal POSTed to `/review`:
`\x7b sample, is_correct, corrected_action \x7d`.  `corrected_action` is the
`correctedAction` parameter of `handleReview`, whose JS default is `null`
(modelled as `none`). -/
structure ReviewBody where
  sample : Sample
  is_correct : Bool
  corrected_action : Option Nat
  deriving DecidableEq

/-- A JSON value, for reasoning about what `JSON.stringify` actually puts on
the wire. -/
inductive JsonVal where
  | null
  | bool (b : Bool)
  | num (n : Nat)
  | str (s : String)
  | obj (fields : List (String × JsonVal))

/-- JSON rendering of a sample (the modelled fields). -/
def sampleJson (s : Sample) : JsonVal :=
  JsonVal.obj [("ip", JsonVal.str s.ip), ("predicted_action", JsonVal.num s.predicted_action)]

/-- Field list produced by `JSON.stringify` on the review body.
`JSON.stringify` keeps keys whose value is `null` (it only drops
`undefined`), so the `corrected_action` key is always present: as
`JsonVal.null` when the parameter was the JS default `null`, as a number
otherwise. -/
def reviewBodyJsonFields (b : ReviewBody) : List (String × JsonVal) :=
  [("sample", sampleJson b.sample),
   ("is_correct", JsonVal.bool b.is_correct),
   ("corrected_action",
     match b.corrected_action with
     | none => JsonVal.null
     | some a => JsonVal.num a)]

/-- First value bound to `key` in a JSON field list, if any. -/
def jsonField : List (String × JsonVal) → String → Option JsonVal
  | [], _ => none
  | (k, v) :: rest, key => if k = key then some v else jsonField rest key

/-- Outcomes of the two round-trips `fetchData` awaits.  `none` means the
`fetch` promise rejected or the `.json()` parse threw (either way control
jumps to the single `catch`). -/
structure InitGateway where
  samplesResult : Option SamplesResponse
  statsResult : Option StatsResponse
  deriving DecidableEq

/-- Outcomes of the round-trips `handleReview` may await: the `/review`
POST, and the follow-up `/stats` GET that only happens inside the
`result.success` branch. -/
structure ReviewGateway where
  reviewResult : Option ReviewResponse
  statsResult : Option StatsResponse
  deriving DecidableEq

/-- One observable effect of a handler, in program order.
`loadSamplesRequest`/`statsRequest`/`reviewRequest` mark HTTP requests being
issued; `reviewAck` marks the parsed `/review` response becoming available
(the `await response.json()` returning); the remaining constructors are the
React state setters (`notify` is a `showNotification` call, whose 3000-unit
auto-dismiss timer is modelled separately by `visibleAt`). -/
inductive Event where
  | loadSamplesRequest
  | statsRequest
  | reviewRequest (body : ReviewBody)
  | reviewAck (r : ReviewResponse)
  | notify (message : String) (type : String)
  | setSamples (samples : List Sample)
  | dequeue
  | statsApply (stats : Stats)
  | exitCorrection
  | setProcessing (b : Bool)
  | setLoading (b : Bool)
  deriving DecidableEq

/-- Effect of a single event on the React state.  Request markers and the
acknowledgment marker do not touch state.  `dequeue` is
`setSamples (prev => prev.slice 1)`, `statsApply` is `setStats`,
`exitCorrection` is `setCorrectionMode false`. -/
def applyEvent (st : AppState) : Event → AppState
  | Event.loadSamplesRequest => st
  | Event.statsRequest => st
  | Event.reviewRequest _ => st
  | Event.reviewAck _ => st
  | Event.notify m ty => { st with notification := some { message := m, type := ty } }
  | Event.setSamples ss => { st with samples := ss }
  | Event.dequeue => { st with samples := st.samples.drop 1 }
  | Event.statsApply s => { st with stats := some s }
  | Event.exitCorrection => { st with correctionMode := false }
  | Event.setProcessing b => { st with processing := b }
  | Event.setLoading b => { st with loading := b }

/-- Replay an effect list over a state. -/
def runEvents (st : AppState) (evs : List Event) : AppState :=
  evs.foldl applyEvent st

/-- Number of `showNotification` calls in an effect list. -/
def notifyCount (evs : List Event) : Nat :=
  (evs.filter fun e =>
    match e with
    | Event.notify _ _ => true
    | _ => false).length

/-- `fetchData` (src/App.js lines 34-51).  Both fetches are started
(fan-out), then joined by `Promise.all`, which is fail-fast: if either
round-trip throws, the `await` throws and control reaches the `catch`,
which raises the single error notification; neither result slice is
applied.  Only when both responses parse does each slice get applied,
guarded by its own `success` flag.  `setLoading false` runs in `finally`
on every path. -/
def fetchData (gw : InitGateway) : List Event :=
  Event.loadSamplesRequest :: Event.statsRequest ::
    (match gw.samplesResult, gw.statsResult with
     | some samplesData, some statsData =>
         (if samplesData.success then [Event.setSamples samplesData.samples] else []) ++
         (if statsData.success then [Event.statsApply statsData.stats] else []) ++
         [Event.setLoading false]
     | _, _ =>
         [Event.notify "Error connecting to Firewall API" "error", Event.setLoading false])

/-- `handleReview` (src/App.js lines 64-98).  Returns immediately when the
queue is empty (before `setProcessing true`); otherwise posts the head
sample with the decision.  On a parsed response with `success` true:
notification (server message; severity from the request's `isCorrect`),
dequeue, single `/stats` re-fetch (applied when its own `success` flag is
true), then `setCorrectionMode false`.  A throw anywhere in the `try`
(review fetch/parse, or the stats fetch/parse) jumps to the `catch`, which
raises the fixed error notification.  `setProcessing false` runs in
`finally` on every non-empty path.  Note the source never reads
`st.processing` here. -/
def handleReview (st : AppState) (isCorrect : Bool) (correctedAction : Option Nat)
    (gw : ReviewGateway) : List Event :=
  match st.samples with
  | [] => []
  | currentSample :: _ =>
      Event.setProcessing true ::
      Event.reviewRequest
        { sample := currentSample, is_correct := isCorrect,
          corrected_action := correctedAction } ::
      (match gw.reviewResult with
       | none =>
           [Event.notify "Failed to submit review" "error", Event.setProcessing false]
       | some result =>
           Event.reviewAck result ::
           ((if result.success then
               Event.notify result.message (if isCorrect then "success" else "warning") ::
               Event.dequeue ::
               Event.statsRequest ::
               (match gw.statsResult with
                | none => [Event.notify "Failed to submit review" "error"]
                | some statsData =>
                    (if statsData.success then [Event.statsApply statsData.stats] else []) ++
                    [Event.exitCorrection])
             else []) ++
            [Event.setProcessing false]))

/-- The correction-panel choice list (src/App.js lines 369-371):
`[0, 1, 2].filter (a => a !== currentSample.predicted_action)`. -/
def correctionOptions (predicted_action : Nat) : List Nat :=
  ([0, 1, 2] : List Nat).filter fun a => a ≠ predicted_action

/-- Clicking a correction-option button: `handleReview(false, action)`
(src/App.js line 376). -/
def correctionClick (st : AppState) (action : Nat) (gw : ReviewGateway) : List Event :=
  handleReview st false (some action) gw

/-- Clicking the confirm button: `handleReview(true)` (src/App.js line 352);
`correctedAction` takes its JS default `null`. -/
def confirmClick (st : AppState) (gw : ReviewGateway) : List Event :=
  handleReview st true none gw

/-- One `showNotification(message, type)` call at a given virtual time. -/
structure NotifyCall where
  time : Nat
  message : String
  type : String
  deriving DecidableEq

/-- Timeline of writes to the notification slot induced by a list of
`showNotification` calls (src/App.js lines 59-62): each call writes the
slot at its own time and schedules `setNotification(null)` 3000 units
later.  The source never calls `clearTimeout`, so every scheduled clear
stays armed and fires. -/
def notifyTimeline (calls : List NotifyCall) : List (Nat × Option Notification) :=
  calls.foldr
    (fun c acc =>
      (c.time, some { message := c.message, type := c.type }) ::
      (c.time + 3000, (none : Option Notification)) :: acc)
    []

/-- Value of the notification slot at time `t`: the value written by the
latest timeline write at or before `t` (later-scheduled calls win ties),
or `none` if nothing has been written yet. -/
def visibleAt (calls : List NotifyCall) (t : Nat) : Option Notification :=
  match (notifyTimeline calls).foldl
      (fun best e =>
        if e.1 ≤ t then
          match best with
          | none => some e
          | some b => if b.1 ≤ e.1 then some e else some b
        else best)
      (none : Option (Nat × Option Notification)) with
  | none => none
  | some b => b.2

/-- Fixture: the sample of the spec's end-to-end scenario. -/
def sampleA : Sample := { ip := "1.2.3.4", predicted_action := 2 }

/-- Fixture: a stats snapshot. -/
def statsA : Stats :=
  { accuracy := 80, total_reviewed := 10, correct_predictions := 8,
    incorrect_predictions := 2, pending_feedback := { count := 0, threshold := 10 },
    retraining_in_progress := false }

/-- Fixture: one sample pending, idle controller. -/
def readyState : AppState :=
  { samples := [sampleA], stats := some statsA, loading := false, processing := false,
    correctionMode := false, notification := none }

/-- Fixture: one sample pending while a review is already in flight. -/
def busyState : AppState :=
  { samples := [sampleA], stats := none, loading := false, processing := true,
    correctionMode := false, notification := none }

/-- Fixture: one sample pending, correction panel open. -/
def correctingState : AppState :=
  { samples := [sampleA], stats := none, loading := false, processing := false,
    correctionMode := true, notification := none }

/-- Fixture: review acknowledged successfully, stats re-fetch succeeds. -/
def gwOK : ReviewGateway :=
  { reviewResult := some { success := true, message := "Updated" },
    statsResult := some { success := true, stats := statsA } }

/-- Fixture: review acknowledged successfully, stats re-fetch throws. -/
def gwStatsDown : ReviewGateway :=
  { reviewResult := some { success := true, message := "Updated" },
    statsResult := none }

/-- Fixture: the samples call returns successfully, the stats call throws. -/
def gwStatsFail : InitGateway :=
  { samplesResult := some { success := true, samples := [sampleA] }, statsResult := none }

/-- C1 counterexample.  Run `fetchData` from a fresh state with the samples
call succeeding and the stats call failing by transport error: because
`Promise.all` rejects as soon as either promise rejects, the samples result
is never applied — the queue stays empty, refuting the claim that the
successful call's slice is still applied (here it would have to equal
`[sampleA]`). -/
theorem C1_counterexample :
    (runEvents initialState (fetchData gwStatsFail)).samples ≠ [sampleA] ∧
    (runEvents initialState (fetchData gwStatsFail)).samples = [] := by
  decide

/-- C1 (amended): `fetchData` fans out its two requests but joins them with
a fail-fast `Promise.all`: if either round-trip throws, neither slice is
applied (both keep their prior values) and exactly one error notification
"Error connecting to Firewall API" is raised; when both responses parse,
each slice is applied independently exactly when its own success flag is
true, and no notification is raised. -/
theorem C1_fail_fast (st : AppState) (gw : InitGateway) :
    ((gw.samplesResult = none ∨ gw.statsResult = none) →
      (runEvents st (fetchData gw)).samples = st.samples ∧
      (runEvents st (fetchData gw)).stats = st.stats ∧
      (runEvents st (fetchData gw)).notification =
        some { message := "Error connecting to Firewall API", type := "error" } ∧
      notifyCount (fetchData gw) = 1) ∧
    (∀ samplesData statsData,
      gw.samplesResult = some samplesData → gw.statsResult = some statsData →
      notifyCount (fetchData gw) = 0 ∧
      (runEvents st (fetchData gw)).samples =
        (if samplesData.success then samplesData.samples else st.samples) ∧
      (runEvents st (fetchData gw)).stats =
        (if statsData.success then some statsData.stats else st.stats) ∧
      (runEvents st (fetchData gw)).notification = st.notification) := by
  obtain ⟨sr, tr⟩ := gw
  constructor
  · intro h
    cases sr <;> cases tr <;>
      simp_all [fetchData, runEvents, applyEvent, notifyCount]
  · intro samplesData statsData h1 h2
    cases sr with
    | none => exact absurd h1 (by simp)
    | some a =>
      cases tr with
      | none => exact absurd h2 (by simp)
      | some b =>
        obtain rfl : a = samplesData := by simpa using h1
        obtain rfl : b = statsData := by simpa using h2
        cases hs : a.success <;> cases ht : b.success <;>
          simp [fetchData, runEvents, applyEvent, notifyCount, hs, ht]

/-- C1 witness: the amended theorem applied at the concrete fail-fast run. -/
theorem C1_fail_fast_witness :
    (runEvents initialState (fetchData gwStatsFail)).notification =
      some { message := "Error connecting to Firewall API", type := "error" } ∧
    notifyCount (fetchData gwStatsFail) = 1 :=
  ⟨((C1_fail_fast initialState gwStatsFail).1 (Or.inr rfl)).2.2.1,
   ((C1_fail_fast initialState gwStatsFail).1 (Or.inr rfl)).2.2.2⟩

/-- Fixture for the notification-rearm scenario of the claim: notification
A shown at time 0, notification B shown at time 1000. -/
def rearmCalls : List NotifyCall :=
  [{ time := 0, message := "A", type := "success" },
   { time := 1000, message := "B", type := "success" }]

/-- C2, code evaluated at the failing input.  `showNotification` never
invalidates the previous `setTimeout`, so A's clear fires at time 3000 and
empties the slot even though B was shown at time 1000: B is visible at
time 2999 but the slot is already empty at time 3001 (the claim requires B
to still be visible there). -/
theorem C2_code_eval :
    visibleAt rearmCalls 2999 = some { message := "B", type := "success" } ∧
    visibleAt rearmCalls 3001 = none ∧
    visibleAt rearmCalls 4001 = none := by
  decide

/-- C3 counterexample.  With a review already in flight
(`busyState.processing = true`) and a sample still queued, a further
`handleReview` call still issues the `/review` gateway request — the claim
requires that no gateway request be sent. -/
theorem C3_counterexample :
    busyState.processing = true ∧
    Event.reviewRequest { sample := sampleA, is_correct := true, corrected_action := none } ∈
      handleReview busyState true none gwOK := by
  decide

/-- C3 (amended): `handleReview` never consults the `processing` flag — its
behaviour is identical whether or not a review is in flight, and whenever
the queue is non-empty it issues the `/review` request for the head
sample.  Single-flight is only approximated by UI-level disabling of the
confirm/reject buttons, not enforced by the controller. -/
theorem C3_no_single_flight (st : AppState) (isCorrect : Bool)
    (correctedAction : Option Nat) (gw : ReviewGateway) :
    handleReview st isCorrect correctedAction gw =
      handleReview { st with processing := false } isCorrect correctedAction gw ∧
    (∀ s rest, st.samples = s :: rest →
      Event.reviewRequest
          { sample := s, is_correct := isCorrect, corrected_action := correctedAction } ∈
        handleReview st isCorrect correctedAction gw) := by
  constructor
  · simp [handleReview]
  · intro s rest hs
    simp [handleReview, hs]

/-- C3 witness: the amended theorem applied at the in-flight state. -/
theorem C3_no_single_flight_witness :
    Event.reviewRequest { sample := sampleA, is_correct := false, corrected_action := some 0 } ∈
      handleReview busyState false (some 0) gwOK :=
  (C3_no_single_flight busyState false (some 0) gwOK).2 sampleA [] rfl

/-- C4: a `dequeue` only ever appears in a `handleReview` run whose
`/review` response parsed and carried `success = true` — a sample is never
removed from the queue on a transport error or on a non-success
response. -/
theorem C4_no_dequeue_without_success (st : AppState) (isCorrect : Bool)
    (correctedAction : Option Nat) (gw : ReviewGateway)
    (h : Event.dequeue ∈ handleReview st isCorrect correctedAction gw) :
    ∃ r, gw.reviewResult = some r ∧ r.success = true := by
  cases hs : st.samples with
  | nil => simp [handleReview, hs] at h
  | cons s rest =>
    cases hr : gw.reviewResult with
    | none => simp [handleReview, hs, hr] at h
    | some r =>
      cases hsucc : r.success with
      | false => simp [handleReview, hs, hr, hsucc] at h
      | true => exact ⟨r, rfl, hsucc⟩

/-- C4 witness: the theorem applied at a concrete successful run. -/
theorem C4_no_dequeue_without_success_witness :
    ∃ r, gwOK.reviewResult = some r ∧ r.success = true :=
  C4_no_dequeue_without_success readyState true none gwOK (by decide)

/-- Fixture: the `/review` response parses but carries `success: false`. -/
def gwRejected : ReviewGateway :=
  { reviewResult := some { success := false, message := "rejected" },
    statsResult := none }

/-- C5 counterexample.  A well-formed `success: false` review response
raises NO notification at all (the notification slot stays empty and the
run contains zero `showNotification` calls), refuting the claim that every
failing submission raises an error notification. -/
theorem C5_counterexample :
    (runEvents correctingState
        (handleReview correctingState false (some 0) gwRejected)).notification = none ∧
    notifyCount (handleReview correctingState false (some 0) gwRejected) = 0 := by
  decide

/-- C5 (amended): on a transport error the fixed error notification
"Failed to submit review" is raised and the queue and correction mode are
unchanged; on a well-formed response with `success = false` no
notification is raised and the queue and correction mode are likewise
unchanged. -/
theorem C5_failure_behavior (st : AppState) (isCorrect : Bool)
    (correctedAction : Option Nat) (gw : ReviewGateway) (hne : st.samples ≠ []) :
    (gw.reviewResult = none →
      (runEvents st (handleReview st isCorrect correctedAction gw)).notification =
        some { message := "Failed to submit review", type := "error" } ∧
      (runEvents st (handleReview st isCorrect correctedAction gw)).samples = st.samples ∧
      (runEvents st (handleReview st isCorrect correctedAction gw)).correctionMode =
        st.correctionMode) ∧
    (∀ r, gw.reviewResult = some r → r.success = false →
      (runEvents st (handleReview st isCorrect correctedAction gw)).notification =
        st.notification ∧
      (runEvents st (handleReview st isCorrect correctedAction gw)).samples = st.samples ∧
      (runEvents st (handleReview st isCorrect correctedAction gw)).correctionMode =
        st.correctionMode ∧
      notifyCount (handleReview st isCorrect correctedAction gw) = 0) := by
  cases hs : st.samples with
  | nil => exact absurd hs hne
  | cons s rest =>
    constructor
    · intro hr
      simp [handleReview, hs, hr, runEvents, applyEvent]
    · intro r hr hsucc
      simp [handleReview, hs, hr, hsucc, runEvents, applyEvent, notifyCount]

/-- C5 witness: the amended theorem applied at concrete transport-error and
server-rejection runs. -/
theorem C5_failure_behavior_witness :
    ((runEvents correctingState (handleReview correctingState true none
        { reviewResult := none, statsResult := none })).notification =
      some { message := "Failed to submit review", type := "error" } ∧
     (runEvents correctingState (handleReview correctingState true none
        { reviewResult := none, statsResult := none })).samples =
      correctingState.samples) ∧
    notifyCount (handleReview correctingState false (some 0) gwRejected) = 0 :=
  ⟨⟨((C5_failure_behavior correctingState true none
        { reviewResult := none, statsResult := none } (by decide)).1 rfl).1,
    ((C5_failure_behavior correctingState true none
        { reviewResult := none, statsResult := none } (by decide)).1 rfl).2.1⟩,
   ((C5_failure_behavior correctingState false (some 0) gwRejected (by decide)).2
      { success := false, message := "rejected" } rfl rfl).2.2.2⟩

/-- C6 counterexample.  A `/review` call acknowledged with `success: true`
whose follow-up `/stats` fetch throws never reaches
`setCorrectionMode(false)`: correction mode is NOT exited, refuting the
claim that every success-acknowledged submission exits correction mode. -/
theorem C6_counterexample :
    (runEvents correctingState
        (handleReview correctingState false (some 0) gwStatsDown)).correctionMode = true ∧
    Event.exitCorrection ∉ handleReview correctingState false (some 0) gwStatsDown := by
  decide

/-- C6 (amended): on a `success: true` acknowledgment the run is exactly,
in program order and strictly after the acknowledgment marker:
notification of the server message (severity success if `is_correct` else
warning), dequeue of the head sample, a single `/stats` request (never a
sample reload); then, only if that stats round-trip resolves, its snapshot
is applied (when flagged successful) and correction mode is exited; if the
stats round-trip throws, the error notification replaces the success one
and correction mode is not exited.  `setProcessing false` is always
last. -/
theorem C6_success_order (st : AppState) (s : Sample) (rest : List Sample)
    (isCorrect : Bool) (correctedAction : Option Nat) (gw : ReviewGateway)
    (r : ReviewResponse) (hs : st.samples = s :: rest)
    (hr : gw.reviewResult = some r) (hsucc : r.success = true) :
    handleReview st isCorrect correctedAction gw =
      [Event.setProcessing true,
       Event.reviewRequest
         { sample := s, is_correct := isCorrect, corrected_action := correctedAction },
       Event.reviewAck r,
       Event.notify r.message (if isCorrect then "success" else "warning"),
       Event.dequeue,
       Event.statsRequest] ++
      (match gw.statsResult with
       | none => [Event.notify "Failed to submit review" "error"]
       | some statsData =>
           (if statsData.success then [Event.statsApply statsData.stats] else []) ++
           [Event.exitCorrection]) ++
      [Event.setProcessing false] := by
  cases ht : gw.statsResult <;>
    simp [handleReview, hs, hr, hsucc, ht]

/-- C6 witness: the amended theorem applied at the concrete fully
successful run of the spec's end-to-end scenario. -/
theorem C6_success_order_witness :
    handleReview readyState true none gwOK =
      [Event.setProcessing true,
       Event.reviewRequest { sample := sampleA, is_correct := true, corrected_action := none },
       Event.reviewAck { success := true, message := "Updated" },
       Event.notify "Updated" "success",
       Event.dequeue,
       Event.statsRequest,
       Event.statsApply statsA,
       Event.exitCorrection,
       Event.setProcessing false] := by
  have h := C6_success_order readyState sampleA [] true none gwOK
    { success := true, message := "Updated" } rfl rfl rfl
  simpa [gwOK] using h

/-- C7: for each of the three possible predicted actions the correction
panel offers exactly the other two action values — never the predicted one
— and clicking an offered value submits a review body with
`is_correct = false` and `corrected_action = some chosen`. -/
theorem C7_correction_choices (p : Nat) (hp : p = 0 ∨ p = 1 ∨ p = 2) :
    (p ∉ correctionOptions p ∧
     correctionOptions p = (if p = 0 then [1, 2] else if p = 1 then [0, 2] else [0, 1])) ∧
    (∀ st s rest a gw, st.samples = s :: rest →
      Event.reviewRequest { sample := s, is_correct := false, corrected_action := some a } ∈
        correctionClick st a gw) := by
  constructor
  · rcases hp with h | h | h <;> subst h <;> decide
  · intro st s rest a gw hs
    simp [correctionClick, handleReview, hs]

/-- C7 witness: the theorem applied at `predicted_action = 2` (the fixture
sample) and a concrete correction click choosing action 0. -/
theorem C7_correction_choices_witness :
    (2 ∉ correctionOptions 2 ∧
     correctionOptions 2 =
       (if 2 = 0 then [1, 2] else if 2 = 1 then [0, 2] else [0, 1])) ∧
    Event.reviewRequest { sample := sampleA, is_correct := false, corrected_action := some 0 } ∈
      correctionClick readyState 0 gwOK :=
  ⟨(C7_correction_choices 2 (by decide)).1,
   (C7_correction_choices 2 (by decide)).2 readyState sampleA [] 0 gwOK rfl⟩

/-- C8: with an empty queue `handleReview` returns before doing anything —
no events at all: no gateway request, no state change, no notification. -/
theorem C8_empty_queue_noop (st : AppState) (isCorrect : Bool)
    (correctedAction : Option Nat) (gw : ReviewGateway) (h : st.samples = []) :
    handleReview st isCorrect correctedAction gw = [] ∧
    runEvents st (handleReview st isCorrect correctedAction gw) = st ∧
    notifyCount (handleReview st isCorrect correctedAction gw) = 0 := by
  refine ⟨by simp [handleReview, h], ?_, ?_⟩ <;>
    simp [handleReview, h, runEvents, notifyCount]

/-- C8 witness: the theorem applied at the fresh (empty-queue) state. -/
theorem C8_empty_queue_noop_witness :
    handleReview initialState true none gwOK = [] ∧
    runEvents initialState (handleReview initialState true none gwOK) = initialState :=
  ⟨(C8_empty_queue_noop initialState true none gwOK rfl).1,
   (C8_empty_queue_noop initialState true none gwOK rfl).2.1⟩

/-- C9 counterexample.  A confirm click does submit the review request, but
`JSON.stringify` keeps the `corrected_action` key with value `null`
(`correctedAction`'s JS default) — the field is PRESENT in the wire
payload, refuting the claim that it is absent when `is_correct` is
true. -/
theorem C9_counterexample :
    Event.reviewRequest { sample := sampleA, is_correct := true, corrected_action := none } ∈
      confirmClick readyState gwOK ∧
    jsonField
        (reviewBodyJsonFields
          { sample := sampleA, is_correct := true, corrected_action := none })
        "corrected_action" ≠ none ∧
    jsonField
        (reviewBodyJsonFields
          { sample := sampleA, is_correct := true, corrected_action := none })
        "corrected_action" = some JsonVal.null := by
  refine ⟨by decide, ?_, rfl⟩
  intro h
  simp [jsonField, reviewBodyJsonFields] at h

/-- C9 (amended): every confirm click from the Direct state submits exactly
one review request, whose body is `is_correct = true` with
`corrected_action = none` (the JS `null` default), and the serialized
payload carries the `corrected_action` key with JSON value `null` — the
key is present, not absent. -/
theorem C9_confirm_payload (st : AppState) (s : Sample) (rest : List Sample)
    (gw : ReviewGateway) (hs : st.samples = s :: rest) :
    Event.reviewRequest { sample := s, is_correct := true, corrected_action := none } ∈
      confirmClick st gw ∧
    (∀ body, Event.reviewRequest body ∈ confirmClick st gw →
      body = { sample := s, is_correct := true, corrected_action := none }) ∧
    jsonField
        (reviewBodyJsonFields { sample := s, is_correct := true, corrected_action := none })
        "corrected_action" = some JsonVal.null := by
  refine ⟨by simp [confirmClick, handleReview, hs], ?_, rfl⟩
  intro body hb
  cases hr : gw.reviewResult with
  | none =>
    simp [confirmClick, handleReview, hs, hr] at hb
    exact hb
  | some r =>
    cases hsucc : r.success with
    | false =>
      simp [confirmClick, handleReview, hs, hr, hsucc] at hb
      exact hb
    | true =>
      cases ht : gw.statsResult with
      | none =>
        simp [confirmClick, handleReview, hs, hr, hsucc, ht] at hb
        exact hb
      | some statsData =>
        cases hds : statsData.success <;>
          · simp [confirmClick, handleReview, hs, hr, hsucc, ht, hds] at hb
            exact hb

/-- C9 witness: the amended theorem applied at the concrete ready state. -/
theorem C9_confirm_payload_witness :
    Event.reviewRequest { sample := sampleA, is_correct := true, corrected_action := none } ∈
      confirmClick readyState gwStatsDown :=
  (C9_confirm_payload readyState sampleA [] gwStatsDown rfl).1

/-- C10: when the `/review` call is acknowledged with `success: true` but
the follow-up `/stats` fetch throws, the dequeue is not rolled back (the
head sample stays removed), the error notification "Failed to submit
review" replaces the earlier success notification, correction mode is not
exited, and the controller still returns to idle (`processing = false`). -/
theorem C10_stats_refetch_failure (st : AppState) (s : Sample) (rest : List Sample)
    (isCorrect : Bool) (correctedAction : Option Nat) (gw : ReviewGateway)
    (r : ReviewResponse) (hs : st.samples = s :: rest)
    (hr : gw.reviewResult = some r) (hsucc : r.success = true)
    (ht : gw.statsResult = none) :
    Event.notify r.message (if isCorrect then "success" else "warning") ∈
      handleReview st isCorrect correctedAction gw ∧
    (runEvents st (handleReview st isCorrect correctedAction gw)).samples = rest ∧
    (runEvents st (handleReview st isCorrect correctedAction gw)).notification =
      some { message := "Failed to submit review", type := "error" } ∧
    (runEvents st (handleReview st isCorrect correctedAction gw)).correctionMode =
      st.correctionMode ∧
    Event.exitCorrection ∉ handleReview st isCorrect correctedAction gw ∧
    (runEvents st (handleReview st isCorrect correctedAction gw)).processing = false := by
  simp [handleReview, hs, hr, hsucc, ht, runEvents, applyEvent]

/-- C10 witness: the theorem applied at the concrete run where the stats
re-fetch throws after a successful acknowledgment. -/
theorem C10_stats_refetch_failure_witness :
    (runEvents correctingState
        (handleReview correctingState false (some 0) gwStatsDown)).samples = [] ∧
    (runEvents correctingState
        (handleReview correctingState false (some 0) gwStatsDown)).notification =
      some { message := "Failed to submit review", type := "error" } ∧
    (runEvents correctingState
        (handleReview correctingState false (some 0) gwStatsDown)).processing = false :=
  ⟨(C10_stats_refetch_failure correctingState sampleA [] false (some 0) gwStatsDown
      { success := true, message := "Updated" } rfl rfl rfl rfl).2.1,
   (C10_stats_refetch_failure correctingState sampleA [] false (some 0) gwStatsDown
      { success := true, message := "Updated" } rfl rfl rfl rfl).2.2.1,
   (C10_stats_refetch_failure correctingState sampleA [] false (some 0) gwStatsDown
      { success := true, message := "Updated" } rfl rfl rfl rfl).2.2.2.2.2⟩
